import Mathlib

/-!
Verification development for the CML MCP toolkit
(`src/claude_modeling_labs.py`), a thin client over the Cisco Modeling
Labs REST API.  The Python code is shallowly embedded: the HTTP transport
is an oracle `Nat → Response` (the response to the i-th outbound call of a
run) or, for the higher-level tools, a per-call oracle; exceptions become
`Except`; Python dicts become association lists with Python's
insert-or-overwrite semantics.  Every definition is translated from the
source file, and the theorems below settle the specification's claims
about it.
-/

namespace CML

/-- An HTTP response as the gateway sees it: a status code and a body
text.  `httpx.Response.raise_for_status` raises exactly when the status
is not 2xx. -/
structure Response where
  status : Nat
  text : String
  deriving Repr, DecidableEq

/-- Success test of httpx responses: status in the 2xx range. -/
def Response.isSuccess (r : Response) : Bool :=
  200 ≤ r.status && r.status < 300

/-- One outbound HTTP call recorded in a run's trace: the login POST of
`authenticate`, the `authok` verification GET of `authenticate`, or an
API call of `request` carrying its `Authorization` header value. -/
inductive Req where
  | login : Req
  | authok : Req
  | api (method endpoint authHeader : String) : Req
  deriving Repr, DecidableEq

/-- The mutable state of a `CMLAuth` object: base URL, credentials, the
stored token (`self.token`, `None` at construction), the transport
client's `Authorization` header (`self.client.headers`, absent at
construction), and the SSL-verification flag. -/
structure AuthState where
  base_url : String
  username : String
  password : String
  token : Option String
  authHeader : Option String
  verify_ssl : Bool
  deriving Repr, DecidableEq

/-- Model of `CMLAuth.__init__`: stores the connection data and leaves the token
unset. -/
def CMLAuth.init (base_url username password : String)
    (verify_ssl : Bool) : AuthState :=
  { base_url := base_url, username := username, password := password,
    token := none, authHeader := none, verify_ssl := verify_ssl }

/-- The errors the gateway can raise: `httpx.HTTPStatusError` from the
login POST's `raise_for_status` (the spec's `AuthenticationError`), and
`httpx.HTTPStatusError` from the API call's `raise_for_status` (the
spec's `RequestError`, carrying method, path and status). -/
inductive CMLError where
  | authFailed (status : Nat)
  | requestFailed (method endpoint : String) (status : Nat)
  deriving Repr, DecidableEq

/-- Python's `s.strip('"')`: remove every leading and trailing
double-quote character. -/
def pyStripQuotes (s : String) : String :=
  String.mk (((s.toList.dropWhile (· = '"')).reverse.dropWhile
    (· = '"')).reverse)

/-- The transport oracle: `server i` is the response to the i-th
outbound HTTP call of the run. -/
def Server : Type := Nat → Response

/-- Result of running a gateway operation: its value (or raised error),
the `CMLAuth` state afterwards, the index of the next unconsumed
response, and the trace of outbound calls it issued, in order. -/
structure RunResult (α : Type) where
  res : Except CMLError α
  state : AuthState
  next : Nat
  trace : List Req
  deriving Repr

/-- Model of `CMLAuth.authenticate`: POST the credentials to the login endpoint;
`raise_for_status` on a non-2xx login response (token unchanged); on
success store the quote-stripped response text as the token, mirror it
into the client's `Authorization` header, then issue the `authok`
verification GET whose outcome is logged but never alters the result
(the `try`/`except` around it swallows every failure). -/
def authenticate (st : AuthState) (server : Server) (n : Nat) :
    RunResult String :=
  let r1 := server n
  if r1.isSuccess then
    let tok := pyStripQuotes r1.text
    let st' := { st with token := some tok,
                         authHeader := some ("Bearer " ++ tok) }
    -- the verification GET consumes the next response; any failure is
    -- only printed, so its content is ignored
    { res := Except.ok tok, state := st', next := n + 2,
      trace := [Req.login, Req.authok] }
  else
    { res := Except.error (CMLError.authFailed r1.status), state := st,
      next := n + 1, trace := [Req.login] }

/-- The body of `CMLAuth.request` after the `if not self.token` guard:
`pre` is the run so far (the conditional pre-authentication).  Sets the
`Authorization` header to `Bearer <token>`, issues the call, on a 401
response re-authenticates once, refreshes the header and retries once,
then applies `raise_for_status` to the final response. -/
def requestCore (server : Server) (method endpoint : String)
    (pre : RunResult String) : RunResult Response :=
  match pre.res with
  | Except.error e =>
    { res := Except.error e, state := pre.state, next := pre.next,
      trace := pre.trace }
  | Except.ok _ =>
    let hdr := "Bearer " ++ pre.state.token.getD "None"
    let r := server pre.next
    let t1 := pre.trace ++ [Req.api method endpoint hdr]
    if r.status = 401 then
      let re := authenticate pre.state server (pre.next + 1)
      match re.res with
      | Except.error e =>
        { res := Except.error e, state := re.state, next := re.next,
          trace := t1 ++ re.trace }
      | Except.ok _ =>
        let hdr2 := "Bearer " ++ re.state.token.getD "None"
        let r2 := server re.next
        let t2 := t1 ++ re.trace ++ [Req.api method endpoint hdr2]
        if r2.isSuccess then
          { res := Except.ok r2, state := re.state, next := re.next + 1,
            trace := t2 }
        else
          { res := Except.error
              (CMLError.requestFailed method endpoint r2.status),
            state := re.state, next := re.next + 1, trace := t2 }
    else
      if r.isSuccess then
        { res := Except.ok r, state := pre.state, next := pre.next + 1,
          trace := t1 }
      else
        { res := Except.error
            (CMLError.requestFailed method endpoint r.status),
          state := pre.state, next := pre.next + 1, trace := t1 }

/-- Model of `CMLAuth.request`: authenticate first when no token is held (Python's
`if not self.token` is also true for the empty string), then run the
request body.  Errors raised by either authentication propagate. -/
def request (st : AuthState) (server : Server) (n : Nat)
    (method endpoint : String) : RunResult Response :=
  requestCore server method endpoint
    (match st.token with
     | none => authenticate st server n
     | some t =>
       if t = "" then authenticate st server n
       else { res := Except.ok t, state := st, next := n, trace := [] })

/-- Number of login POSTs (authentication attempts) in a trace. -/
def countLogin (t : List Req) : Nat :=
  t.countP (fun r => match r with | Req.login => true | _ => false)

/-- Number of API calls in a trace. -/
def countApi (t : List Req) : Nat :=
  t.countP (fun r => match r with | Req.api _ _ _ => true | _ => false)

/-! ## The readiness poll (`wait_for_lab_nodes`)

The loop queries every node of the lab each round, sequentially; a round's
answers are the oracle `states round`, mapping a node id to the `state`
field of the node's JSON (`node_data.get("state", "UNKNOWN")` supplies a
default, so the oracle is total).  `asyncio` time is modelled as advancing
only at `asyncio.sleep(5)`; the Python `timeout` is an `int`, so it is an
`Int` here (`time() - start_time < timeout` is a strict comparison).
-/

/-- What one run of the polling loop did: the final `all_ready` flag, how
many per-node status GETs it issued, and how many 5-second sleeps it
performed. -/
structure PollResult where
  allReady : Bool
  queries : Nat
  sleeps : Nat
  deriving Repr, DecidableEq

/-- The `while not all_ready and (time() - start_time) < timeout` loop of
`wait_for_lab_nodes`, as a recursion: `all_ready` enters as `False`, each
round queries every node (no early exit inside the `for`), and a failed
round sleeps 5 seconds before re-checking the clock. -/
def pollLoop (states : Nat → String → String) (nodes : List String)
    (timeout : Int) (round : Nat) (elapsed : Int) : PollResult :=
  if h : elapsed < timeout then
    if nodes.all (fun nid => states round nid == "STARTED") then
      { allReady := true, queries := nodes.length, sleeps := 0 }
    else
      let rest := pollLoop states nodes timeout (round + 1) (elapsed + 5)
      { allReady := rest.allReady, queries := nodes.length + rest.queries,
        sleeps := 1 + rest.sleeps }
  else
    { allReady := false, queries := 0, sleeps := 0 }
termination_by (timeout - elapsed).toNat
decreasing_by omega

/-- Model of `wait_for_lab_nodes` after its auth guard: checks the lab's `state`
field from `get_lab_details`, fetches the node collection, runs the
polling loop, and renders the outcome as a status string.  Returns the
message together with the loop's accounting. -/
def wait_for_lab_nodes (labState : String) (nodes : List String)
    (states : Nat → String → String) (timeout : Int) :
    String × PollResult :=
  if labState ≠ "STARTED" then
    ("Lab is not in STARTED state. Start the lab first.",
     { allReady := false, queries := 0, sleeps := 0 })
  else
    let r := pollLoop states nodes timeout 0 0
    if r.allReady then
      ("All nodes in the lab are initialized and ready", r)
    else
      (s!"Timeout reached ({timeout} seconds). Some nodes may not be fully initialized.", r)

/-! ## JSON values and the list-to-mapping normalization -/

/-- A JSON value as `response.json()` yields it (Python `None`, `bool`,
`int`, `str`, `list`, `dict`). -/
inductive JVal where
  | null : JVal
  | bool (b : Bool) : JVal
  | num (n : Int) : JVal
  | str (s : String) : JVal
  | arr (elems : List JVal) : JVal
  | obj (fields : List (String × JVal)) : JVal
  deriving Repr

mutual

/-- Structural equality of JSON values (Python's `==` on decoded JSON). -/
def JVal.beq : JVal → JVal → Bool
  | JVal.null, JVal.null => true
  | JVal.bool a, JVal.bool b => a == b
  | JVal.num a, JVal.num b => a == b
  | JVal.str a, JVal.str b => a == b
  | JVal.arr xs, JVal.arr ys => JVal.beqList xs ys
  | JVal.obj xs, JVal.obj ys => JVal.beqFields xs ys
  | _, _ => false

/-- Elementwise equality of JSON arrays. -/
def JVal.beqList : List JVal → List JVal → Bool
  | [], [] => true
  | x :: xs, y :: ys => JVal.beq x y && JVal.beqList xs ys
  | _, _ => false

/-- Entrywise equality of JSON objects. -/
def JVal.beqFields :
    List (String × JVal) → List (String × JVal) → Bool
  | [], [] => true
  | (k1, v1) :: xs, (k2, v2) :: ys =>
    k1 == k2 && JVal.beq v1 v2 && JVal.beqFields xs ys
  | _, _ => false

end

instance : BEq JVal := ⟨JVal.beq⟩

/-- Python truthiness of a JSON value (`if node_id:`): `None`, `False`,
`0`, `""`, `[]` and `{}` are falsy. -/
def JVal.truthy : JVal → Bool
  | JVal.null => false
  | JVal.bool b => b
  | JVal.num n => n != 0
  | JVal.str s => s != ""
  | JVal.arr xs => !xs.isEmpty
  | JVal.obj fs => !fs.isEmpty

/-- Model of `d.get(k)` on a Python dict decoded from JSON: `none` when the key is
missing. -/
def JVal.get? : JVal → String → Option JVal
  | JVal.obj fs, k => fs.lookup k
  | _, _ => none

/-- Model of `d.get(k, default)`. -/
def JVal.getD (v : JVal) (k : String) (dflt : JVal) : JVal :=
  (v.get? k).getD dflt

/-- Is the value a Python dict? (`isinstance(x, dict)`). -/
def JVal.isObj : JVal → Bool
  | JVal.obj _ => true
  | _ => false

/-- Model of `result[k] = v` on a Python dict: overwrite in place when the key
exists, else append; keys here may be any JSON value, as in Python. -/
def pyDictInsert (d : List (JVal × JVal)) (k v : JVal) :
    List (JVal × JVal) :=
  if d.any (fun p => p.1 == k) then
    d.map (fun p => if p.1 == k then (k, v) else p)
  else
    d ++ [(k, v)]

/-- Model of `node.get("id")` as the conversion loops read it: Python `None`
(here `JVal.null`) when absent. -/
def idOf (x : JVal) : JVal :=
  (x.get? "id").getD JVal.null

/-- One iteration of the shared `for node in nodes: node_id =
node.get("id"); if node_id: result[node_id] = node` conversion loop.  An
element that is not a dict makes `.get` raise `AttributeError` (the
`Except.error` case, caught by the tool's outer handler). -/
def idInsertStep (d : List (JVal × JVal)) (x : JVal) :
    Except String (List (JVal × JVal)) :=
  match x with
  | JVal.obj _ =>
    if (idOf x).truthy then Except.ok (pyDictInsert d (idOf x) x)
    else Except.ok d
  | _ => Except.error "AttributeError"

/-- The whole list-to-dict conversion loop, starting from `result =
{}`. -/
def listToIdDict (xs : List JVal) :
    Except String (List (JVal × JVal)) :=
  xs.foldlM idInsertStep []

/-- The shape of a collection result: either a dict freshly built from a
list (keys are the ids), or the decoded JSON handed back unconverted. -/
inductive Normalized where
  | converted (d : List (JVal × JVal)) : Normalized
  | passthrough (v : JVal) : Normalized
  deriving Repr

/-- Model of `get_lab_nodes` response shaping: a list is converted to an
id-keyed dict; anything else is returned as-is. -/
def get_lab_nodes (j : JVal) : Except String Normalized :=
  match j with
  | JVal.arr xs => (listToIdDict xs).map Normalized.converted
  | v => Except.ok (Normalized.passthrough v)

/-- Model of `get_lab_links` response shaping: identical to `get_lab_nodes`
(convert a list by `link.get("id")`, pass a dict through). -/
def get_lab_links (j : JVal) : Except String Normalized :=
  match j with
  | JVal.arr xs => (listToIdDict xs).map Normalized.converted
  | v => Except.ok (Normalized.passthrough v)

/-- The dict branch of `list_node_definitions`: each entry is replaced by
the summary `{"description": ..., "type": ..., "interfaces": ...}` with
defaulted fields; a non-dict entry value makes `.get` raise. -/
def nodeDefSummary (info : JVal) : Except String JVal :=
  match info with
  | JVal.obj fs =>
    Except.ok (JVal.obj
      [("description", (JVal.obj fs).getD "description" (JVal.str "")),
       ("type", (JVal.obj fs).getD "type" (JVal.str "")),
       ("interfaces", (JVal.obj fs).getD "interfaces" (JVal.arr []))])
  | _ => Except.error "AttributeError"

/-- One iteration of the dict branch of `list_node_definitions`:
`result[node_id] = {...summary...}`. -/
def nodeDefStep (d : List (JVal × JVal)) (p : String × JVal) :
    Except String (List (JVal × JVal)) := do
  let s ← nodeDefSummary p.2
  pure (pyDictInsert d (JVal.str p.1) s)

/-- Model of `list_node_definitions` response shaping: a list is converted to an
id-keyed dict of the full objects; a dict is rebuilt with the same keys
but each value reduced to its summary; `.items()` on anything else
raises. -/
def list_node_definitions (j : JVal) : Except String Normalized :=
  match j with
  | JVal.arr xs => (listToIdDict xs).map Normalized.converted
  | JVal.obj fs => (fs.foldlM nodeDefStep []).map Normalized.converted
  | _ => Except.error "AttributeError"

/-! ## Link creation (`create_link_v3`)

The authenticated POST is abstracted as an oracle
`send : Nat → JVal → Except String JVal` giving, per attempt index, the
decoded JSON of the response or the exception message raised (HTTP error
or JSON decode failure).  The function's value is paired with the list of
payloads it actually POSTed, in order. -/

/-- The primary link-creation payload, `{"src_int": a, "dst_int": b}`. -/
def linkPayloadA (a b : String) : JVal :=
  JVal.obj [("src_int", JVal.str a), ("dst_int", JVal.str b)]

/-- The fallback link-creation payload, `{"i1": a, "i2": b}`. -/
def linkPayloadB (a b : String) : JVal :=
  JVal.obj [("i1", JVal.str a), ("i2", JVal.str b)]

/-- Whether a link-creation attempt raises inside its `try`: either the
request itself raised (non-2xx or undecodable body), or the body is not
a dict so `result.get("id")` raises `AttributeError`. -/
def attemptRaises : Except String JVal → Bool
  | Except.error _ => true
  | Except.ok v => !v.isObj

/-- Result dictionary of `create_link_v3`: a success dict carrying the
link id and the raw response; the `"no link ID returned"` error; the
`"Failed to create link with both formats"` error; or the
`_handle_api_error` dict built from the first attempt's exception. -/
inductive LinkResult where
  | success (link_id : JVal) (alt : Bool) (details : JVal) : LinkResult
  | noId (response : JVal) : LinkResult
  | bothFailed : LinkResult
  | apiError (msg : String) : LinkResult
  deriving Repr

/-- The `except` branch of `create_link_v3`: retry once with the
alternative payload; a truthy id yields the alternative-format success,
a falsy id yields the `"both formats"` error, and a second exception
falls back to `_handle_api_error("create_link", e)` with the FIRST
attempt's exception `e`. -/
def linkAltAttempt (send : Nat → JVal → Except String JVal)
    (a b : String) (e : String) : LinkResult × List JVal :=
  let pB := linkPayloadB a b
  let sent := [linkPayloadA a b, pB]
  match send 1 pB with
  | Except.ok v =>
    match v with
    | JVal.obj _ =>
      if (idOf v).truthy then (LinkResult.success (idOf v) true v, sent)
      else (LinkResult.bothFailed, sent)
    | _ => (LinkResult.apiError ("Error during create_link: " ++ e), sent)
  | Except.error _ =>
    (LinkResult.apiError ("Error during create_link: " ++ e), sent)

/-- Model of `create_link_v3`: POST `{"src_int", "dst_int"}`; when that attempt
raises (HTTP failure, undecodable body, or a non-dict body on which
`.get` raises), fall back to one attempt with `{"i1", "i2"}`; a 2xx
response whose dict lacks a truthy `"id"` is the no-id error and
triggers no fallback. -/
def create_link_v3 (send : Nat → JVal → Except String JVal)
    (a b : String) : LinkResult × List JVal :=
  let pA := linkPayloadA a b
  match send 0 pA with
  | Except.ok v =>
    match v with
    | JVal.obj _ =>
      if (idOf v).truthy then (LinkResult.success (idOf v) false v, [pA])
      else (LinkResult.noId v, [pA])
    | _ => linkAltAttempt send a b "AttributeError"
  | Except.error e => linkAltAttempt send a b e

/-! ## Interface creation (`create_interface`) -/

/-- Model of `result.get("label")`. -/
def labelOf (x : JVal) : JVal :=
  (x.get? "label").getD JVal.null

/-- Result dictionary of `create_interface`: an `{"error": ...}` dict
(the running-lab guard or `_handle_api_error`), the unexpected-format
error carrying the raw response, or a success dict with the interface id
and label read from the response. -/
inductive IfaceResult where
  | errorMsg (msg : String) : IfaceResult
  | badFormat (response : JVal) : IfaceResult
  | success (interface_id : JVal) (interface_label : JVal)
      (details : JVal) : IfaceResult
  deriving Repr

/-- Model of `create_interface` after its auth guard.  `labDetails` is what
`get_lab_details` returned (a dict of lab attributes, or its error
dict); `post` is the authenticated POST oracle for
`/api/v0/labs/{lab_id}/interfaces`.  Returns the result together with
the list of payloads POSTed: when the lab is `STARTED` the guard
answers the running-lab error and nothing is POSTed; otherwise
`{"node": node_id, "slot": slot}` is POSTed and the response is shaped
(a non-empty list yields its head's id and label, a dict with truthy id
yields that id, anything else is the unexpected-format error). -/
def create_interface (labDetails : JVal)
    (post : JVal → Except String JVal) (node_id : String) (slot : Int) :
    IfaceResult × List JVal :=
  if labDetails.isObj && (labDetails.getD "state" JVal.null
      == JVal.str "STARTED") then
    (IfaceResult.errorMsg
      "Cannot create interfaces while the lab is running. Please stop the lab first.",
     [])
  else
    let payload := JVal.obj [("node", JVal.str node_id),
                             ("slot", JVal.num slot)]
    match post payload with
    | Except.error e =>
      (IfaceResult.errorMsg ("Error during create_interface: " ++ e),
       [payload])
    | Except.ok result =>
      match result with
      | JVal.arr (x :: _) =>
        match x with
        | JVal.obj _ =>
          (IfaceResult.success (idOf x) (labelOf x) result, [payload])
        | _ =>
          (IfaceResult.errorMsg
            "Error during create_interface: AttributeError", [payload])
      | JVal.obj _ =>
        if (idOf result).truthy then
          (IfaceResult.success (idOf result) (labelOf result) result,
           [payload])
        else (IfaceResult.badFormat result, [payload])
      | _ => (IfaceResult.badFormat result, [payload])

/-! ## Concrete fixtures used to instantiate the theorems -/

/-- A session that already holds a (non-empty) token. -/
def stWithToken : AuthState :=
  { base_url := "https://cml", username := "admin", password := "pw",
    token := some "tok1", authHeader := some "Bearer tok1",
    verify_ssl := true }

/-- A freshly constructed, unauthenticated session. -/
def stFresh : AuthState :=
  CMLAuth.init "https://cml" "admin" "pw" true

/-- A server whose login endpoint accepts and returns the token
`"abc123"` (quoted, as CML does), and which answers 200 elsewhere. -/
def srvLoginOk : Server := fun i =>
  if i = 0 then { status := 200, text := "\"abc123\"" }
  else { status := 200, text := "ok" }

/-- A server that rejects every call with 403. -/
def srvLoginFail : Server := fun _ =>
  { status := 403, text := "denied" }

/-- A server that answers the first call with 401, accepts the re-login
with token `"abc123"`, accepts the verification call, and rejects the
retried request with 403. -/
def srv401then403 : Server := fun i =>
  if i = 0 then { status := 401, text := "expired" }
  else if i = 1 then { status := 200, text := "\"abc123\"" }
  else if i = 2 then { status := 200, text := "ok" }
  else { status := 403, text := "denied" }

/-- A server whose login endpoint answers 200 with an empty body. -/
def srvEmptyTok : Server := fun _ =>
  { status := 200, text := "" }

/-- The session-token invariant of the spec: the stored token is either
absent or a non-empty string. -/
def TokenInv (st : AuthState) : Prop :=
  ∀ t, st.token = some t → t ≠ ""

/-- A server all of whose successful responses carry a non-empty body
once quotes are stripped (in particular every accepted login yields a
non-empty token). -/
def GoodServer (server : Server) : Prop :=
  ∀ i, (server i).isSuccess = true → pyStripQuotes (server i).text ≠ ""

/-- Two session states agree on everything except the token and the
transport client's `Authorization` header: same server address,
credentials and SSL flag. -/
def SameFrame (a b : AuthState) : Prop :=
  a.base_url = b.base_url ∧ a.username = b.username ∧
  a.password = b.password ∧ a.verify_ssl = b.verify_ssl

end CML

namespace CML

/-- C3.  `authenticate` fails with the authentication error exactly when
the login response is non-2xx (state untouched, only the login POST
issued); on a 2xx login it stores the quote-stripped token, issues the
verification call, and its result does not depend on the verification
response: any server agreeing on the login response yields the same
result. -/
theorem claim_C3_authenticate_contract (st : AuthState) (server : Server)
    (n : Nat) :
    ((server n).isSuccess = false →
      (authenticate st server n).res
          = Except.error (CMLError.authFailed (server n).status) ∧
      (authenticate st server n).state = st ∧
      (authenticate st server n).trace = [Req.login]) ∧
    ((server n).isSuccess = true →
      (authenticate st server n).res
          = Except.ok (pyStripQuotes (server n).text) ∧
      (authenticate st server n).state.token
          = some (pyStripQuotes (server n).text) ∧
      (authenticate st server n).trace = [Req.login, Req.authok] ∧
      ∀ server2 : Server, server2 n = server n →
        (authenticate st server2 n).res = (authenticate st server n).res) := by
  constructor
  · intro hS
    simp [authenticate, hS]
  · intro hS
    refine ⟨by simp [authenticate, hS], by simp [authenticate, hS],
      by simp [authenticate, hS], ?_⟩
    intro server2 h2
    simp [authenticate, h2, hS]

/-- Witness for C3 at concrete inputs: a 403 login raises the
authentication error, a 200 login returns the unquoted token. -/
theorem claim_C3_witness :
    (authenticate stFresh srvLoginFail 0).res
        = Except.error (CMLError.authFailed 403) ∧
    (authenticate stFresh srvLoginOk 0).res = Except.ok "abc123" := by
  constructor
  · exact ((claim_C3_authenticate_contract stFresh srvLoginFail 0).1
      (by decide)).1
  · have h := ((claim_C3_authenticate_contract stFresh srvLoginOk 0).2
      (by decide)).1
    simpa [srvLoginOk, pyStripQuotes] using h

/-- Counting helper: `authenticate` issues no API calls. -/
theorem countApi_authenticate (st : AuthState) (server : Server)
    (n : Nat) : countApi (authenticate st server n).trace = 0 := by
  by_cases hS : (server n).isSuccess = true <;>
    simp [authenticate, hS, countApi]

/-- Counting helper: API counts add up over concatenated traces. -/
theorem countApi_append (a b : List Req) :
    countApi (a ++ b) = countApi a + countApi b :=
  List.countP_append _ _ _

/-- Counting helper: an API call at the head adds one. -/
theorem countApi_cons_api (m e hd : String) (t : List Req) :
    countApi (Req.api m e hd :: t) = countApi t + 1 := by
  simp [countApi, List.countP_cons]

/-- Counting helper: the empty trace has no API calls. -/
theorem countApi_nil : countApi [] = 0 :=
  rfl

/-- Counting helper: the request body issues at most two API calls on
top of a pre-run that issued none. -/
theorem countApi_requestCore (server : Server) (method endpoint : String)
    (pre : RunResult String) (h : countApi pre.trace = 0) :
    countApi (requestCore server method endpoint pre).trace ≤ 2 := by
  unfold requestCore
  cases hres : pre.res with
  | error e0 => simp [hres, h]
  | ok v =>
    by_cases h401 : (server pre.next).status = 401
    · simp only [hres, h401, if_true]
      cases hres2 : (authenticate pre.state server (pre.next + 1)).res with
      | error e1 =>
        simp [hres2, countApi_append, countApi_cons_api, countApi_nil, h,
          countApi_authenticate]
      | ok v2 =>
        by_cases hR :
            (server (authenticate pre.state server (pre.next + 1)).next).isSuccess
              = true <;>
          simp [hres2, hR, countApi_append, countApi_cons_api,
            countApi_nil, h, countApi_authenticate]
    · by_cases hR : (server pre.next).isSuccess = true <;>
        simp [hres, h401, hR, countApi_append, countApi_cons_api,
          countApi_nil, h]

/-- Universal no-loop bound: every call of `request` issues at most two
API calls, whatever the session state and server behaviour. -/
theorem countApi_request_le_two (st : AuthState) (server : Server)
    (n : Nat) (method endpoint : String) :
    countApi (request st server n method endpoint).trace ≤ 2 := by
  unfold request
  apply countApi_requestCore
  cases htok : st.token with
  | none => exact countApi_authenticate st server n
  | some t =>
    by_cases ht : t = ""
    · simpa [ht] using countApi_authenticate st server n
    · simp [ht, countApi]

/-- C1.  When a token is held and the first response of `request` is
401: exactly one re-authentication attempt is made and at most one retry
is issued (never a loop); when the re-login succeeds, the retry is
issued exactly once and carries the refreshed token, and a non-success
retry response makes the operation end in the request error; when the
re-login itself fails, the operation ends in the authentication error.
The final conjunct bounds every call, whatever the state and whatever
the responses: never more than the original request plus one retry. -/
theorem claim_C1_single_retry_on_401 (st : AuthState) (server : Server)
    (n : Nat) (method endpoint t : String) (h1 : st.token = some t)
    (h2 : t ≠ "") (h3 : (server n).status = 401) :
    countLogin (request st server n method endpoint).trace = 1 ∧
    countApi (request st server n method endpoint).trace ≤ 2 ∧
    ((server (n + 1)).isSuccess = true →
      (request st server n method endpoint).trace
        = [Req.api method endpoint ("Bearer " ++ t), Req.login, Req.authok,
           Req.api method endpoint
             ("Bearer " ++ pyStripQuotes (server (n + 1)).text)] ∧
      ((server (n + 3)).isSuccess = false →
        (request st server n method endpoint).res
          = Except.error (CMLError.requestFailed method endpoint
              (server (n + 3)).status))) ∧
    ((server (n + 1)).isSuccess = false →
      (request st server n method endpoint).res
        = Except.error (CMLError.authFailed (server (n + 1)).status)) ∧
    (∀ st' : AuthState,
      countApi (request st' server n method endpoint).trace ≤ 2) := by
  have hbound : ∀ st' : AuthState,
      countApi (request st' server n method endpoint).trace ≤ 2 :=
    fun st' => countApi_request_le_two st' server n method endpoint
  by_cases hS : (server (n + 1)).isSuccess = true
  · by_cases hR : (server (n + 3)).isSuccess = true
    · refine ⟨?_, ?_, ?_, ?_, hbound⟩ <;>
        simp [request, requestCore, authenticate, h1, h2, h3, hS, hR, countLogin,
          countApi, show n + 1 + 2 = n + 3 from rfl]
    · refine ⟨?_, ?_, ?_, ?_, hbound⟩ <;>
        simp [request, requestCore, authenticate, h1, h2, h3, hS, hR, countLogin,
          countApi, show n + 1 + 2 = n + 3 from rfl]
  · refine ⟨?_, ?_, ?_, ?_, hbound⟩ <;>
      simp [request, requestCore, authenticate, h1, h2, h3, hS, countLogin, countApi]

/-- Witness for C1 at a concrete run: first response 401, re-login
succeeds with token `abc123`, retry is rejected with 403; the trace
shows one re-login and one retry, and the result is the request
error. -/
theorem claim_C1_witness :
    countLogin (request stWithToken srv401then403 0 "GET" "/x").trace = 1 ∧
    (request stWithToken srv401then403 0 "GET" "/x").trace
      = [Req.api "GET" "/x" "Bearer tok1", Req.login, Req.authok,
         Req.api "GET" "/x" "Bearer abc123"] ∧
    (request stWithToken srv401then403 0 "GET" "/x").res
      = Except.error (CMLError.requestFailed "GET" "/x" 403) := by
  have h := claim_C1_single_retry_on_401 stWithToken srv401then403 0
    "GET" "/x" "tok1" rfl (by decide) rfl
  have h2 := h.2.2.1 (by decide)
  refine ⟨h.1, ?_, h2.2 (by decide)⟩
  have h3 := h2.1
  simpa [srv401then403, pyStripQuotes] using h3

/-- C2.  With no token held and the login succeeding, `request` issues
exactly one authentication (the login POST and its verification GET) and
only then the API call, and that API call carries the header
`Authorization: Bearer <token>` for the token just stored (the
quote-stripped login response text), which is also the token stored when
it is issued. -/
theorem claim_C2_auth_before_send (st : AuthState) (server : Server)
    (n : Nat) (method endpoint : String) (h1 : st.token = none)
    (h2 : (server n).isSuccess = true) :
    (request st server n method endpoint).trace.take 3
      = [Req.login, Req.authok,
         Req.api method endpoint
           ("Bearer " ++ pyStripQuotes (server n).text)] ∧
    countLogin ((request st server n method endpoint).trace.take 2) = 1 := by
  by_cases h401 : (server (n + 2)).status = 401
  · by_cases hS : (server (n + 3)).isSuccess = true
    · by_cases hR : (server (n + 5)).isSuccess = true
      · constructor <;>
          simp [request, requestCore, authenticate, h1, h2, h401, hS, hR, countLogin,
            show n + 2 + 1 = n + 3 from rfl, show n + 3 + 2 = n + 5 from rfl]
      · constructor <;>
          simp [request, requestCore, authenticate, h1, h2, h401, hS, hR, countLogin,
            show n + 2 + 1 = n + 3 from rfl, show n + 3 + 2 = n + 5 from rfl]
    · constructor <;>
        simp [request, requestCore, authenticate, h1, h2, h401, hS, countLogin,
          show n + 2 + 1 = n + 3 from rfl]
  · by_cases hR : (server (n + 2)).isSuccess = true
    · constructor <;>
        simp [request, requestCore, authenticate, h1, h2, h401, hR, countLogin]
    · constructor <;>
        simp [request, requestCore, authenticate, h1, h2, h401, hR, countLogin]

/-- Witness for C2: the unauthenticated session against a server whose
login returns `"abc123"`; the GET to `/x` goes out after exactly one
authentication, with header `Bearer abc123`. -/
theorem claim_C2_witness :
    (request stFresh srvLoginOk 0 "GET" "/x").trace.take 3
      = [Req.login, Req.authok, Req.api "GET" "/x" "Bearer abc123"] := by
  have h := (claim_C2_auth_before_send stFresh srvLoginOk 0 "GET" "/x"
    rfl (by decide)).1
  simpa [srvLoginOk, pyStripQuotes] using h

/-- C7 counterexample.  The stored token is NOT always absent or
non-empty: a 200 login response with an empty body (`self.token =
response.text.strip('"')` performs no emptiness check) leaves the
session holding `some ""`, a present but empty token. -/
theorem claim_C7_counterexample :
    (authenticate stFresh srvEmptyTok 0).state.token = some "" ∧
    ¬ TokenInv (authenticate stFresh srvEmptyTok 0).state := by
  have h : (authenticate stFresh srvEmptyTok 0).state.token = some "" := by
    simp [authenticate, srvEmptyTok, stFresh, CMLAuth.init, pyStripQuotes,
      Response.isSuccess]
  exact ⟨h, fun hinv => hinv "" h rfl⟩

/-- Preservation: `authenticate` keeps the token invariant whenever the server's
successful responses carry non-empty (quote-stripped) bodies. -/
theorem tokenInv_authenticate (st : AuthState) (server : Server) (n : Nat)
    (hg : GoodServer server) (hst : TokenInv st) :
    TokenInv (authenticate st server n).state := by
  by_cases hS : (server n).isSuccess = true
  · intro t ht
    simp [authenticate, hS] at ht
    exact ht ▸ hg n hS
  · simpa [authenticate, hS] using hst

/-- Preservation: `requestCore` keeps the token invariant of its incoming run. -/
theorem tokenInv_requestCore (server : Server) (method endpoint : String)
    (pre : RunResult String) (hg : GoodServer server)
    (hpre : TokenInv pre.state) :
    TokenInv (requestCore server method endpoint pre).state := by
  unfold requestCore
  cases hres : pre.res with
  | error e0 => simpa using hpre
  | ok v =>
    by_cases h401 : (server pre.next).status = 401
    · simp only [h401, if_true]
      cases hres2 : (authenticate pre.state server (pre.next + 1)).res with
      | error e1 =>
        simpa using tokenInv_authenticate pre.state server (pre.next + 1)
          hg hpre
      | ok v2 =>
        by_cases hR :
            (server (authenticate pre.state server (pre.next + 1)).next).isSuccess
              = true <;>
          simpa [hres2, hR] using
            tokenInv_authenticate pre.state server (pre.next + 1) hg hpre
    · by_cases hR : (server pre.next).isSuccess = true <;>
        simpa [h401, hR] using hpre

/-- C7 amended.  Provided every accepted login response carries a
non-empty quote-stripped body, the invariant "the stored token is absent
or non-empty" is established by `CMLAuth.__init__` and preserved by
`authenticate` and `request`. -/
theorem claim_C7_token_invariant (base u p : String) (ssl : Bool)
    (st : AuthState) (server : Server) (n : Nat)
    (method endpoint : String) (hg : GoodServer server)
    (hst : TokenInv st) :
    TokenInv (CMLAuth.init base u p ssl) ∧
    TokenInv (authenticate st server n).state ∧
    TokenInv (request st server n method endpoint).state := by
  refine ⟨?_, tokenInv_authenticate st server n hg hst, ?_⟩
  · intro t ht
    simp [CMLAuth.init] at ht
  · unfold request
    apply tokenInv_requestCore server method endpoint _ hg
    cases htok : st.token with
    | none => exact tokenInv_authenticate st server n hg hst
    | some t =>
      by_cases ht : t = ""
      · simp only [ht, if_true]
        exact tokenInv_authenticate st server n hg hst
      · simpa [ht] using hst

/-- Witness for C7 at concrete inputs: a good server and a fresh
session; after `request` (which authenticates and stores `abc123`) the
invariant still holds. -/
theorem claim_C7_witness :
    TokenInv (request stFresh srvLoginOk 0 "GET" "/x").state := by
  have hg : GoodServer srvLoginOk := by
    intro i _
    by_cases h : i = 0 <;> simp [srvLoginOk, h, pyStripQuotes]
  have hst : TokenInv stFresh := by
    intro t ht
    simp [stFresh, CMLAuth.init] at ht
  exact (claim_C7_token_invariant "https://cml" "admin" "pw" true stFresh
    srvLoginOk 0 "GET" "/x" hg hst).2.2

/-- C8 counterexample.  The stored token is NOT the only mutable session
state: `authenticate` also mutates the transport client's headers
(`self.client.headers.update({"Authorization": ...})`, line 78), so the
header set changes across the call. -/
theorem claim_C8_counterexample :
    (authenticate stFresh srvLoginOk 0).state.authHeader
        = some "Bearer abc123" ∧
    stFresh.authHeader = none ∧
    (authenticate stFresh srvLoginOk 0).state.authHeader
        ≠ stFresh.authHeader := by
  refine ⟨?_, rfl, ?_⟩ <;>
    simp [authenticate, srvLoginOk, stFresh, CMLAuth.init, pyStripQuotes,
      Response.isSuccess]

/-- Frame: `authenticate` changes at most the token and the `Authorization`
header. -/
theorem sameFrame_authenticate (st : AuthState) (server : Server)
    (n : Nat) : SameFrame (authenticate st server n).state st := by
  by_cases hS : (server n).isSuccess = true <;>
    simp [authenticate, hS, SameFrame]

/-- Frame: `requestCore` changes at most the token and the `Authorization`
header of its incoming run's state. -/
theorem sameFrame_requestCore (server : Server) (method endpoint : String)
    (pre : RunResult String) :
    SameFrame (requestCore server method endpoint pre).state pre.state := by
  unfold requestCore
  cases hres : pre.res with
  | error e0 => simp [SameFrame]
  | ok v =>
    by_cases h401 : (server pre.next).status = 401
    · simp only [h401, if_true]
      cases hres2 : (authenticate pre.state server (pre.next + 1)).res with
      | error e1 =>
        simpa using sameFrame_authenticate pre.state server (pre.next + 1)
      | ok v2 =>
        by_cases hR :
            (server (authenticate pre.state server (pre.next + 1)).next).isSuccess
              = true <;>
          simpa [hres2, hR] using
            sameFrame_authenticate pre.state server (pre.next + 1)
    · by_cases hR : (server pre.next).isSuccess = true <;>
        simp [h401, hR, SameFrame]

/-- C8 amended.  `authenticate` and `request` mutate only the stored
token and the transport client's `Authorization` header (which mirrors
it): server address, credentials and the SSL flag are left unchanged by
every gateway operation. -/
theorem claim_C8_frame (st : AuthState) (server : Server) (n : Nat)
    (method endpoint : String) :
    SameFrame (authenticate st server n).state st ∧
    SameFrame (request st server n method endpoint).state st := by
  refine ⟨sameFrame_authenticate st server n, ?_⟩
  unfold request
  have hcore := sameFrame_requestCore server method endpoint
    (match st.token with
     | none => authenticate st server n
     | some t =>
       if t = "" then authenticate st server n
       else { res := Except.ok t, state := st, next := n, trace := [] })
  have hpre : SameFrame
      (match st.token with
       | none => authenticate st server n
       | some t =>
         if t = "" then authenticate st server n
         else { res := Except.ok t, state := st, next := n,
                trace := [] } : RunResult String).state st := by
    cases htok : st.token with
    | none => exact sameFrame_authenticate st server n
    | some t =>
      by_cases ht : t = ""
      · simpa [ht] using sameFrame_authenticate st server n
      · simp [ht, SameFrame]
  obtain ⟨a1, a2, a3, a4⟩ := hcore
  obtain ⟨b1, b2, b3, b4⟩ := hpre
  exact ⟨a1.trans b1, a2.trans b2, a3.trans b3, a4.trans b4⟩

/-- The polling loop reports all-ready exactly when some round it can
reach before the deadline (5 seconds of sleep separate rounds) sees
every node in `STARTED`. -/
theorem pollLoop_allReady_iff (states : Nat → String → String)
    (nodes : List String) (timeout : Int) (round : Nat) (elapsed : Int) :
    (pollLoop states nodes timeout round elapsed).allReady = true ↔
    ∃ j : Nat, elapsed + 5 * j < timeout ∧
      nodes.all (fun nid => states (round + j) nid == "STARTED") = true := by
  rw [pollLoop]
  by_cases h : elapsed < timeout
  · simp only [h, dif_pos]
    by_cases hr : nodes.all (fun nid => states round nid == "STARTED") = true
    · simp only [hr, if_pos]
      constructor
      · intro _
        exact ⟨0, by simpa using h, by simpa using hr⟩
      · intro _
        trivial
    · simp only [hr, if_neg, Bool.not_eq_true]
      have IH := pollLoop_allReady_iff states nodes timeout (round + 1)
        (elapsed + 5)
      simp only [Bool.not_eq_true] at hr
      rw [show (pollLoop states nodes timeout (round + 1)
        (elapsed + 5)).allReady
          = (pollLoop states nodes timeout (round + 1)
              (elapsed + 5)).allReady from rfl] at IH ⊢
      constructor
      · intro hrec
        obtain ⟨j, hj1, hj2⟩ := IH.mp hrec
        refine ⟨j + 1, by omega, ?_⟩
        have : round + 1 + j = round + (j + 1) := by omega
        rwa [this] at hj2
      · rintro ⟨j, hj1, hj2⟩
        cases j with
        | zero =>
          rw [Nat.add_zero] at hj2
          exact absurd hj2 (by simp [hr])
        | succ j =>
          refine IH.mpr ⟨j, by omega, ?_⟩
          have : round + (j + 1) = round + 1 + j := by omega
          rwa [this] at hj2
  · simp only [h, dif_neg]
    constructor
    · intro hfalse
      exact absurd hfalse (by simp)
    · rintro ⟨j, hj1, _⟩
      exfalso
      omega
termination_by (timeout - elapsed).toNat
decreasing_by omega

/-- C4.  With the lab started: the poll answers the all-ready status
string when the deadline is positive and every queried node reports
`STARTED`; it answers the timed-out status string when every round has
some node not in `STARTED` (so the deadline elapses); and in every case
its value is one of these two status strings — the outcome is returned,
never raised. -/
theorem claim_C4_readiness_poll (labState : String) (nodes : List String)
    (states : Nat → String → String) (timeout : Int)
    (hlab : labState = "STARTED") :
    ((0 < timeout ∧ ∀ k nid, nid ∈ nodes → states k nid = "STARTED") →
      (wait_for_lab_nodes labState nodes states timeout).1
        = "All nodes in the lab are initialized and ready") ∧
    ((∀ k, ∃ nid ∈ nodes, states k nid ≠ "STARTED") →
      (wait_for_lab_nodes labState nodes states timeout).1
        = s!"Timeout reached ({timeout} seconds). Some nodes may not be fully initialized.") ∧
    ((wait_for_lab_nodes labState nodes states timeout).1
        = "All nodes in the lab are initialized and ready" ∨
     (wait_for_lab_nodes labState nodes states timeout).1
        = s!"Timeout reached ({timeout} seconds). Some nodes may not be fully initialized.") := by
  subst hlab
  refine ⟨?_, ?_, ?_⟩
  · rintro ⟨ht, hall⟩
    have hready : (pollLoop states nodes timeout 0 0).allReady = true := by
      refine (pollLoop_allReady_iff states nodes timeout 0 0).mpr
        ⟨0, by omega, ?_⟩
      simp only [List.all_eq_true, beq_iff_eq]
      intro nid hnid
      exact hall 0 nid hnid
    simp [wait_for_lab_nodes, hready]
  · intro hnever
    have hnot : ¬ (pollLoop states nodes timeout 0 0).allReady = true := by
      intro htrue
      obtain ⟨j, _, hj⟩ :=
        (pollLoop_allReady_iff states nodes timeout 0 0).mp htrue
      obtain ⟨nid, hnid, hne⟩ := hnever (0 + j)
      simp only [List.all_eq_true, beq_iff_eq] at hj
      exact hne (hj nid hnid)
    simp [wait_for_lab_nodes, hnot]
  · by_cases hready : (pollLoop states nodes timeout 0 0).allReady = true
    · left
      simp [wait_for_lab_nodes, hready]
    · right
      simp [wait_for_lab_nodes, hready]

/-- Witness for C4: two nodes that always report `STARTED` give the
all-ready message under a 60-second deadline; a node that always
reports `BOOTED` gives the timed-out message. -/
theorem claim_C4_witness :
    (wait_for_lab_nodes "STARTED" ["n1", "n2"]
        (fun _ _ => "STARTED") 60).1
      = "All nodes in the lab are initialized and ready" ∧
    (wait_for_lab_nodes "STARTED" ["n1"]
        (fun _ _ => "BOOTED") 60).1
      = "Timeout reached (60 seconds). Some nodes may not be fully initialized." := by
  constructor
  · exact (claim_C4_readiness_poll "STARTED" ["n1", "n2"]
      (fun _ _ => "STARTED") 60 rfl).1
      ⟨by omega, fun _ _ _ => rfl⟩
  · exact (claim_C4_readiness_poll "STARTED" ["n1"]
      (fun _ _ => "BOOTED") 60 rfl).2.1
      (fun _ => ⟨"n1", by simp, by simp⟩)

/-- C9 counterexample.  On an empty node collection the poll does NOT
return all-ready regardless of the timeout: with `timeout = 0` the
`while` condition `time() - start_time < timeout` is false at once,
`all_ready` keeps its initial `False`, and the timed-out message is
returned. -/
theorem claim_C9_counterexample :
    (wait_for_lab_nodes "STARTED" [] (fun _ _ => "STARTED") 0).1
      = "Timeout reached (0 seconds). Some nodes may not be fully initialized." ∧
    (wait_for_lab_nodes "STARTED" [] (fun _ _ => "STARTED") 0).1
      ≠ "All nodes in the lab are initialized and ready" := by
  have hp : pollLoop (fun _ _ => "STARTED") [] 0 0 0
      = { allReady := false, queries := 0, sleeps := 0 } := by
    rw [pollLoop]
    simp
  constructor
  · simp only [wait_for_lab_nodes, hp]
    decide
  · simp only [wait_for_lab_nodes, hp]
    decide

/-- C9 amended.  For every strictly positive timeout, the poll on a
started lab with an empty node collection returns the all-ready result
from its first round, issuing no per-node queries and sleeping never
(`for` over an empty dict leaves `all_ready = True`); with a
non-positive timeout it instead returns the timed-out message, still
with no queries and no sleeps. -/
theorem claim_C9_empty_nodes (states : Nat → String → String)
    (timeout : Int) (h : 0 < timeout) :
    (wait_for_lab_nodes "STARTED" [] states timeout).1
      = "All nodes in the lab are initialized and ready" ∧
    (wait_for_lab_nodes "STARTED" [] states timeout).2.queries = 0 ∧
    (wait_for_lab_nodes "STARTED" [] states timeout).2.sleeps = 0 := by
  have hp : pollLoop states [] timeout 0 0
      = { allReady := true, queries := 0, sleeps := 0 } := by
    rw [pollLoop]
    simp [h]
  refine ⟨?_, ?_, ?_⟩ <;> simp [wait_for_lab_nodes, hp]

/-- Witness for C9 at a concrete input: a 60-second deadline with no
nodes at all gives the all-ready message with zero queries and zero
sleeps. -/
theorem claim_C9_witness :
    (wait_for_lab_nodes "STARTED" [] (fun _ _ => "UNKNOWN") 60).1
      = "All nodes in the lab are initialized and ready" ∧
    (wait_for_lab_nodes "STARTED" [] (fun _ _ => "UNKNOWN") 60).2.queries
      = 0 ∧
    (wait_for_lab_nodes "STARTED" [] (fun _ _ => "UNKNOWN") 60).2.sleeps
      = 0 :=
  claim_C9_empty_nodes (fun _ _ => "UNKNOWN") 60 (by omega)

mutual

/-- Soundness of `JVal.beq` for propositional equality. -/
theorem JVal.eq_of_beq : ∀ (a b : JVal), JVal.beq a b = true → a = b
  | JVal.null, b => by cases b <;> simp [JVal.beq]
  | JVal.bool x, b => by cases b <;> simp [JVal.beq]
  | JVal.num x, b => by cases b <;> simp [JVal.beq]
  | JVal.str x, b => by cases b <;> simp [JVal.beq]
  | JVal.arr xs, b => by
    cases b <;> simp only [JVal.beq] <;> try simp
    intro h
    exact JVal.eqList_of_beqList xs _ h
  | JVal.obj xs, b => by
    cases b <;> simp only [JVal.beq] <;> try simp
    intro h
    exact JVal.eqFields_of_beqFields xs _ h

/-- Soundness of `JVal.beqList` for propositional equality. -/
theorem JVal.eqList_of_beqList :
    ∀ (xs ys : List JVal), JVal.beqList xs ys = true → xs = ys
  | [], [] => by simp
  | [], _ :: _ => by simp [JVal.beqList]
  | _ :: _, [] => by simp [JVal.beqList]
  | x :: xs, y :: ys => by
    simp only [JVal.beqList, Bool.and_eq_true]
    rintro ⟨h1, h2⟩
    rw [JVal.eq_of_beq x y h1, JVal.eqList_of_beqList xs ys h2]

/-- Soundness of `JVal.beqFields` for propositional equality. -/
theorem JVal.eqFields_of_beqFields :
    ∀ (xs ys : List (String × JVal)), JVal.beqFields xs ys = true → xs = ys
  | [], [] => by simp
  | [], _ :: _ => by simp [JVal.beqFields]
  | _ :: _, [] => by simp [JVal.beqFields]
  | (k1, v1) :: xs, (k2, v2) :: ys => by
    simp only [JVal.beqFields, Bool.and_eq_true, beq_iff_eq]
    rintro ⟨⟨hk, hv⟩, ht⟩
    rw [hk, JVal.eq_of_beq v1 v2 hv,
      JVal.eqFields_of_beqFields xs ys ht]

end

/-- Inserting under key `k` puts the entry `(k, v)` into the dict. -/
theorem mem_pyDictInsert_self (d : List (JVal × JVal)) (k v : JVal) :
    (k, v) ∈ pyDictInsert d k v := by
  unfold pyDictInsert
  by_cases h : d.any (fun p => p.1 == k) = true
  · simp only [h, if_pos]
    obtain ⟨p, hp, hpk⟩ := List.any_eq_true.mp h
    exact List.mem_map.mpr ⟨p, hp, by simp [hpk]⟩
  · simp [h]

/-- Every entry of the dict after an insert is an old entry or the new
one. -/
theorem mem_pyDictInsert (d : List (JVal × JVal)) (k w : JVal)
    (q : JVal × JVal) (hq : q ∈ pyDictInsert d k w) :
    q ∈ d ∨ q = (k, w) := by
  unfold pyDictInsert at hq
  by_cases h : d.any (fun p => p.1 == k) = true
  · rw [if_pos h] at hq
    obtain ⟨p, hp, hpe⟩ := List.mem_map.mp hq
    by_cases hpk : (p.1 == k) = true
    · right
      rw [← hpe]
      simp [hpk]
    · left
      rw [← hpe]
      simpa [hpk] using hp
  · rw [if_neg h] at hq
    rcases List.mem_append.mp hq with h1 | h2
    · exact Or.inl h1
    · exact Or.inr (List.mem_singleton.mp h2)

/-- A key present before an insert is still present after it (its value
may have been overwritten). -/
theorem key_mem_pyDictInsert (d : List (JVal × JVal)) (k w v y : JVal)
    (h : (v, y) ∈ d) : ∃ y', (v, y') ∈ pyDictInsert d k w := by
  unfold pyDictInsert
  by_cases ha : d.any (fun p => p.1 == k) = true
  · rw [if_pos ha]
    by_cases hvk : (v == k) = true
    · have hv : v = k := JVal.eq_of_beq v k hvk
      subst hv
      exact ⟨w, List.mem_map.mpr ⟨(v, y), h, by simp [hvk]⟩⟩
    · exact ⟨y, List.mem_map.mpr ⟨(v, y), h, by simp [hvk]⟩⟩
  · rw [if_neg ha]
    exact ⟨y, List.mem_append_left _ h⟩

/-- Running the id-keyed conversion loop over a list of dicts succeeds,
and the result dict (relative to the starting dict `d`): contains only
old entries and elements keyed by their own truthy id; keeps every key
of `d`; and covers every element with a truthy id. -/
theorem idInsertStep_fold_spec :
    ∀ (xs : List JVal) (d : List (JVal × JVal)),
    (∀ x ∈ xs, x.isObj = true) →
    ∃ d', List.foldlM idInsertStep d xs = Except.ok d' ∧
      (∀ q : JVal × JVal, q ∈ d' →
        q ∈ d ∨ (q.2 ∈ xs ∧ idOf q.2 = q.1 ∧ (q.1).truthy = true)) ∧
      (∀ v y : JVal, (v, y) ∈ d → ∃ y', (v, y') ∈ d') ∧
      (∀ x, x ∈ xs → (idOf x).truthy = true → ∃ y, (idOf x, y) ∈ d')
  | [], d, _ =>
    ⟨d, rfl, fun q hq => Or.inl hq, fun v y h => ⟨y, h⟩, by simp⟩
  | x :: xs, d, hobj => by
    have hx : x.isObj = true := hobj x (List.mem_cons_self x xs)
    have hobj' : ∀ z ∈ xs, z.isObj = true :=
      fun z hz => hobj z (List.mem_cons_of_mem x hz)
    by_cases ht : (idOf x).truthy = true
    · have hstep : idInsertStep d x
          = Except.ok (pyDictInsert d (idOf x) x) := by
        cases x <;> simp_all [idInsertStep, JVal.isObj]
      obtain ⟨d', h1, hprov, hpers, hcov⟩ :=
        idInsertStep_fold_spec xs (pyDictInsert d (idOf x) x) hobj'
      refine ⟨d', ?_, ?_, ?_, ?_⟩
      · rw [List.foldlM_cons, hstep]
        simpa using h1
      · intro q hq
        rcases hprov q hq with hmem | hxs
        · rcases mem_pyDictInsert d (idOf x) x q hmem with hd | heq
          · exact Or.inl hd
          · right
            rw [heq]
            exact ⟨List.mem_cons_self x xs, rfl, ht⟩
        · exact Or.inr ⟨List.mem_cons_of_mem x hxs.1, hxs.2.1, hxs.2.2⟩
      · intro v y hvy
        obtain ⟨y', hy'⟩ := key_mem_pyDictInsert d (idOf x) x v y hvy
        exact hpers v y' hy'
      · intro z hz htz
        rcases List.mem_cons.mp hz with rfl | hz'
        · exact hpers (idOf z) z (mem_pyDictInsert_self d (idOf z) z)
        · exact hcov z hz' htz
    · have hstep : idInsertStep d x = Except.ok d := by
        cases x <;> simp_all [idInsertStep, JVal.isObj]
      obtain ⟨d', h1, hprov, hpers, hcov⟩ :=
        idInsertStep_fold_spec xs d hobj'
      refine ⟨d', ?_, ?_, hpers, ?_⟩
      · rw [List.foldlM_cons, hstep]
        simpa using h1
      · intro q hq
        rcases hprov q hq with hmem | hxs
        · exact Or.inl hmem
        · exact Or.inr ⟨List.mem_cons_of_mem x hxs.1, hxs.2.1, hxs.2.2⟩
      · intro z hz htz
        rcases List.mem_cons.mp hz with rfl | hz'
        · exact absurd htz ht
        · exact hcov z hz' htz

/-- Running the node-definition summary loop over a dict whose values
are dicts succeeds, and the result (relative to the starting dict `d`):
contains only old entries and summaries keyed by their string key; keeps
every key of `d`; and covers every key of the input. -/
theorem nodeDefStep_fold_spec :
    ∀ (fs : List (String × JVal)) (d : List (JVal × JVal)),
    (∀ p : String × JVal, p ∈ fs → (p.2).isObj = true) →
    ∃ d', List.foldlM nodeDefStep d fs = Except.ok d' ∧
      (∀ q : JVal × JVal, q ∈ d' →
        q ∈ d ∨ ∃ k v, (k, v) ∈ fs ∧ q.1 = JVal.str k ∧
          nodeDefSummary v = Except.ok q.2) ∧
      (∀ v y : JVal, (v, y) ∈ d → ∃ y', (v, y') ∈ d') ∧
      (∀ k v, (k, v) ∈ fs → ∃ s, (JVal.str k, s) ∈ d')
  | [], d, _ =>
    ⟨d, rfl, fun q hq => Or.inl hq, fun v y h => ⟨y, h⟩, by simp⟩
  | (k0, v0) :: fs, d, hobj => by
    have hv0 : v0.isObj = true := hobj (k0, v0) (List.mem_cons_self _ fs)
    have hobj' : ∀ p : String × JVal, p ∈ fs → (p.2).isObj = true :=
      fun p hp => hobj p (List.mem_cons_of_mem _ hp)
    obtain ⟨s0, hs0⟩ : ∃ s, nodeDefSummary v0 = Except.ok s := by
      cases v0 <;> simp_all [nodeDefSummary, JVal.isObj]
    have hstep : nodeDefStep d (k0, v0)
        = Except.ok (pyDictInsert d (JVal.str k0) s0) := by
      simp [nodeDefStep, hs0]
    obtain ⟨d', h1, hprov, hpers, hcov⟩ :=
      nodeDefStep_fold_spec fs (pyDictInsert d (JVal.str k0) s0) hobj'
    refine ⟨d', ?_, ?_, ?_, ?_⟩
    · rw [List.foldlM_cons, hstep]
      simpa using h1
    · intro q hq
      rcases hprov q hq with hmem | ⟨k, v, hkv, hq1, hq2⟩
      · rcases mem_pyDictInsert d (JVal.str k0) s0 q hmem with hd | heq
        · exact Or.inl hd
        · right
          exact ⟨k0, v0, List.mem_cons_self _ fs, by rw [heq],
            by rw [heq]; exact hs0⟩
      · exact Or.inr ⟨k, v, List.mem_cons_of_mem _ hkv, hq1, hq2⟩
    · intro v y hvy
      obtain ⟨y', hy'⟩ := key_mem_pyDictInsert d (JVal.str k0) s0 v y hvy
      exact hpers v y' hy'
    · intro k v hkv
      rcases List.mem_cons.mp hkv with heq | hkv'
      · obtain ⟨rfl, rfl⟩ := Prod.mk.injEq .. ▸ heq
        exact hpers (JVal.str k) s0
          (mem_pyDictInsert_self d (JVal.str k) s0)
      · exact hcov k v hkv'

/-- C5 counterexample.  Two concrete failures of the claim as stated:
(1) a list element carrying the id field `""` (falsy, so `if node_id:`
skips it) does NOT appear in the normalized mapping; (2) when the server
already returns a mapping, `list_node_definitions` does NOT pass it
through — it rebuilds each entry as a description/type/interfaces
summary, dropping other fields. -/
theorem claim_C5_counterexample :
    get_lab_nodes (JVal.arr [JVal.obj [("id", JVal.str "")]])
      = Except.ok (Normalized.converted []) ∧
    (JVal.str "", JVal.obj [("id", JVal.str "")])
      ∉ ([] : List (JVal × JVal)) ∧
    list_node_definitions
        (JVal.obj [("n1", JVal.obj [("foo", JVal.str "bar")])])
      = Except.ok (Normalized.converted
          [(JVal.str "n1",
            JVal.obj [("description", JVal.str ""),
                      ("type", JVal.str ""),
                      ("interfaces", JVal.arr [])])]) ∧
    Normalized.converted
        [(JVal.str "n1",
          JVal.obj [("description", JVal.str ""),
                    ("type", JVal.str ""),
                    ("interfaces", JVal.arr [])])]
      ≠ Normalized.passthrough
          (JVal.obj [("n1", JVal.obj [("foo", JVal.str "bar")])]) :=
  ⟨rfl, List.not_mem_nil _, rfl, fun h => Normalized.noConfusion h⟩

/-- C5 amended.  For a list-of-dicts response, all three collection
queries build the same id-keyed mapping, in which every element whose
`"id"` field is truthy appears under that id (bound to an element of
the list with that very id — the last one, under Python dict-assignment
semantics) and which contains nothing else; a mapping response is
passed through unchanged by `get_lab_nodes` and `get_lab_links`, while
`list_node_definitions` rebuilds it with the same keys and summarized
values. -/
theorem claim_C5_normalization (xs : List JVal)
    (fs fl fd : List (String × JVal))
    (hobj : ∀ x ∈ xs, x.isObj = true)
    (hdefs : ∀ p : String × JVal, p ∈ fd → (p.2).isObj = true) :
    (∃ d, get_lab_nodes (JVal.arr xs) = Except.ok (Normalized.converted d) ∧
      get_lab_links (JVal.arr xs) = Except.ok (Normalized.converted d) ∧
      list_node_definitions (JVal.arr xs)
        = Except.ok (Normalized.converted d) ∧
      (∀ x, x ∈ xs → (idOf x).truthy = true →
        ∃ y, (idOf x, y) ∈ d ∧ y ∈ xs ∧ idOf y = idOf x) ∧
      (∀ q : JVal × JVal, q ∈ d →
        q.2 ∈ xs ∧ idOf q.2 = q.1 ∧ (q.1).truthy = true)) ∧
    get_lab_nodes (JVal.obj fs)
      = Except.ok (Normalized.passthrough (JVal.obj fs)) ∧
    get_lab_links (JVal.obj fl)
      = Except.ok (Normalized.passthrough (JVal.obj fl)) ∧
    (∃ d, list_node_definitions (JVal.obj fd)
        = Except.ok (Normalized.converted d) ∧
      (∀ k v, (k, v) ∈ fd → ∃ s, (JVal.str k, s) ∈ d) ∧
      (∀ q : JVal × JVal, q ∈ d →
        ∃ k v, (k, v) ∈ fd ∧ q.1 = JVal.str k ∧
          nodeDefSummary v = Except.ok q.2)) := by
  obtain ⟨d, hok, hprov, _, hcov⟩ := idInsertStep_fold_spec xs [] hobj
  obtain ⟨d2, hok2, hprov2, _, hcov2⟩ := nodeDefStep_fold_spec fd [] hdefs
  refine ⟨⟨d, ?_, ?_, ?_, ?_, ?_⟩, rfl, rfl, ⟨d2, ?_, hcov2, ?_⟩⟩
  · simp only [get_lab_nodes, listToIdDict, hok]
    rfl
  · simp only [get_lab_links, listToIdDict, hok]
    rfl
  · simp only [list_node_definitions, listToIdDict, hok]
    rfl
  · intro x hx htx
    obtain ⟨y, hy⟩ := hcov x hx htx
    rcases hprov (idOf x, y) hy with hnil | ⟨hyx, hid, _⟩
    · exact absurd hnil (List.not_mem_nil _)
    · exact ⟨y, hy, hyx, hid⟩
  · intro q hq
    rcases hprov q hq with hnil | h
    · exact absurd hnil (List.not_mem_nil _)
    · exact h
  · simp only [list_node_definitions, hok2]
    rfl
  · intro q hq
    rcases hprov2 q hq with hnil | h
    · exact absurd hnil (List.not_mem_nil _)
    · exact h

/-- Witness for C5 at concrete inputs: a singleton list is converted to
the id-keyed dict, and a mapping is passed through. -/
theorem claim_C5_witness :
    get_lab_nodes (JVal.obj [("a", JVal.null)])
      = Except.ok (Normalized.passthrough (JVal.obj [("a", JVal.null)])) ∧
    get_lab_nodes (JVal.arr [JVal.obj [("id", JVal.str "n1")]])
      = Except.ok (Normalized.converted
          [(JVal.str "n1", JVal.obj [("id", JVal.str "n1")])]) := by
  have h := claim_C5_normalization [JVal.obj [("id", JVal.str "n1")]]
    [("a", JVal.null)] [] [] (by simp [JVal.isObj]) (by simp)
  exact ⟨h.2.1, rfl⟩

/-- C6.  `create_link_v3` always POSTs the `src_int`/`dst_int` payload
first and never POSTs more than two payloads; when the first attempt
does not raise, no second payload is sent; when it raises, exactly one
fallback POST with the `i1`/`i2` payload follows, and if that second
attempt also fails — by raising (the `_handle_api_error` dict is
returned) or by answering without a truthy id (the "both formats" error
is returned) — the result is an error and no further shapes are
tried. -/
theorem claim_C6_link_payload_fallback
    (send : Nat → JVal → Except String JVal) (a b : String) :
    (create_link_v3 send a b).2.head? = some (linkPayloadA a b) ∧
    (create_link_v3 send a b).2.length ≤ 2 ∧
    (attemptRaises (send 0 (linkPayloadA a b)) = false →
      (create_link_v3 send a b).2 = [linkPayloadA a b]) ∧
    (attemptRaises (send 0 (linkPayloadA a b)) = true →
      (create_link_v3 send a b).2
        = [linkPayloadA a b, linkPayloadB a b] ∧
      (attemptRaises (send 1 (linkPayloadB a b)) = true →
        ∃ m, (create_link_v3 send a b).1 = LinkResult.apiError m) ∧
      (∀ r, send 1 (linkPayloadB a b) = Except.ok r → r.isObj = true →
        (idOf r).truthy = false →
        (create_link_v3 send a b).1 = LinkResult.bothFailed)) := by
  cases h0 : send 0 (linkPayloadA a b) with
  | ok v =>
    cases v
    case obj fs =>
      by_cases ht : (idOf (JVal.obj fs)).truthy = true <;>
        refine ⟨?_, ?_, ?_, ?_⟩ <;>
        simp_all [create_link_v3, attemptRaises, JVal.isObj]
    all_goals
      cases h1 : send 1 (linkPayloadB a b) with
      | ok w =>
        cases w <;> refine ⟨?_, ?_, ?_, ?_⟩ <;>
          simp_all [create_link_v3, linkAltAttempt, attemptRaises,
            JVal.isObj] <;>
          (try (split <;> simp_all))
      | error e1 =>
        refine ⟨?_, ?_, ?_, ?_⟩ <;>
          simp_all [create_link_v3, linkAltAttempt, attemptRaises,
            JVal.isObj]
  | error e =>
    cases h1 : send 1 (linkPayloadB a b) with
    | ok w =>
      cases w <;> refine ⟨?_, ?_, ?_, ?_⟩ <;>
        simp_all [create_link_v3, linkAltAttempt, attemptRaises,
          JVal.isObj] <;>
        (try (split <;> simp_all))
    | error e1 =>
      refine ⟨?_, ?_, ?_, ?_⟩ <;>
        simp_all [create_link_v3, linkAltAttempt, attemptRaises,
          JVal.isObj]

/-- Witness for C6 at a concrete run: a server that rejects every POST
makes `create_link_v3` send exactly the two payload shapes, in order,
and return the `_handle_api_error` dict. -/
theorem claim_C6_witness :
    (create_link_v3 (fun _ _ => Except.error "boom") "ifA" "ifB").2
      = [linkPayloadA "ifA" "ifB", linkPayloadB "ifA" "ifB"] ∧
    (create_link_v3 (fun _ _ => Except.error "boom") "ifA" "ifB").1
      = LinkResult.apiError "Error during create_link: boom" := by
  have h := claim_C6_link_payload_fallback
    (fun _ _ => Except.error "boom") "ifA" "ifB"
  exact ⟨(h.2.2.2 rfl).1, rfl⟩

/-- C10.  `create_interface` refuses to act on a running lab: whenever
the lab-details dict reports state `STARTED`, it returns the running-lab
error dict and POSTs nothing, for any POST oracle, node and slot — the
remote lab is untouched. -/
theorem claim_C10_no_create_on_running_lab (labDetails : JVal)
    (post : JVal → Except String JVal) (node_id : String) (slot : Int)
    (h1 : labDetails.isObj = true)
    (h2 : labDetails.get? "state" = some (JVal.str "STARTED")) :
    (create_interface labDetails post node_id slot).1
      = IfaceResult.errorMsg
          "Cannot create interfaces while the lab is running. Please stop the lab first." ∧
    (create_interface labDetails post node_id slot).2 = [] := by
  have hcond : (labDetails.getD "state" JVal.null
      == JVal.str "STARTED") = true := by
    rw [JVal.getD, h2]
    rfl
  constructor <;> simp [create_interface, h1, hcond]

/-- Witness for C10 at a concrete input: a started lab's details make
`create_interface` return the guard error with an empty POST trace. -/
theorem claim_C10_witness :
    (create_interface
        (JVal.obj [("id", JVal.str "lab1"), ("state", JVal.str "STARTED")])
        (fun _ => Except.ok JVal.null) "n1" 4).1
      = IfaceResult.errorMsg
          "Cannot create interfaces while the lab is running. Please stop the lab first." ∧
    (create_interface
        (JVal.obj [("id", JVal.str "lab1"), ("state", JVal.str "STARTED")])
        (fun _ => Except.ok JVal.null) "n1" 4).2 = [] :=
  claim_C10_no_create_on_running_lab
    (JVal.obj [("id", JVal.str "lab1"), ("state", JVal.str "STARTED")])
    (fun _ => Except.ok JVal.null) "n1" 4 rfl rfl

end CML
